import Mathlib

/-!
Learning-Golang: greetings, handleError, the hello demo and the args echo program

A shallow embedding of the four Go source files

* `Basics/greetings/greetings.go`      (package `greetings`)
* `Basics/handleError/handleError.go`  (package `handleError`)
* `Basics/hello/hello.go`              (package `main`, here namespace `hello`)
* `01-Basics/args/main.go`             (package `main`, here namespace `args`)

Go strings are embedded as Lean strings, slices of strings as lists, the `error`
interface as an optional `errors.errorString` (`none` is `nil`).  Code that writes
to the console or may stop the process runs in the state-passing type `Go`, whose
state `Proc` holds the two output streams and the settings of the standard logger.

The few standard-library routines the programs call (`fmt.Sprintf`, `fmt.Println`,
`strings.Join`, `errors.New`, `log.SetPrefix`, `log.SetFlags`, `log.Fatal`, slicing)
are embedded from their Go implementation, restricted to the operand kinds that
occur in this repository.
-/

/-! ## Values, errors and the process state -/

namespace errors

/-- The Go type `errors.errorString`: an error that carries only a message. -/
structure errorString where
  s : String
deriving DecidableEq, Repr

/-- The method `func (e *errorString) Error() string`. -/
def errorString.Error (e : errorString) : String := e.s

/-- The function `errors.New(text)`. -/
def New (text : String) : errorString := ⟨text⟩

end errors

/-- The Go interface type `error`, as far as this repository builds values of it:
`none` is the nil error. -/
abbrev error := Option errors.errorString

/-- The operands passed as `any` to the `fmt` and `log` functions in this repository:
a string, a slice of strings, or an error value. -/
inductive any where
  | str (s : String)
  | strs (xs : List String)
  | err (e : errors.errorString)
deriving DecidableEq, Repr

/-- The observable state of a running process: what has been written to standard
output and standard error, the settings of the standard logger, and the text the
logger would emit for its date, time and file fields (it depends on the clock). -/
structure Proc where
  stdout : String
  stderr : String
  logPrefix : String
  logFlags : Nat
  logStamp : Nat → String

/-- How a piece of Go code stops: it returns a value, it panics with a run-time
error, or it ends the whole process through `os.Exit`. -/
inductive Result (α : Type) where
  | ret (a : α)
  | panicked (msg : String)
  | exited (code : Nat)
deriving DecidableEq, Repr

/-- Go code with console effects: a function of the process state. -/
def Go (α : Type) : Type := Proc → Result α × Proc

/-- Returning a value leaves the process state alone. -/
def Go.pure {α : Type} (a : α) : Go α := fun p => (Result.ret a, p)

/-- Sequencing of statements: the second runs only when the first returned. -/
def Go.bind {α β : Type} (m : Go α) (f : α → Go β) : Go β := fun p =>
  match m p with
  | (Result.ret a, p1) => f a p1
  | (Result.panicked msg, p1) => (Result.panicked msg, p1)
  | (Result.exited code, p1) => (Result.exited code, p1)

instance : Monad Go where
  pure := Go.pure
  bind := Go.bind

/-- A run-time panic. -/
def Go.panic {α : Type} (msg : String) : Go α := fun p => (Result.panicked msg, p)

/-- A fresh process: nothing written yet, the standard logger at its defaults
(no prefix, flags `LstdFlags = Ldate | Ltime`). -/
def Proc.start (stamp : Nat → String) : Proc :=
  { stdout := "", stderr := "", logPrefix := "", logFlags := 3, logStamp := stamp }

/-! ## Package `fmt` -/

namespace fmt

/-- The function `fmtString` for a string under a verb: `%v` and `%s` give the string
itself; another verb is reported the way `badVerb` does. -/
def fmtString (s : String) (verb : Char) : String :=
  if verb = 'v' ∨ verb = 's' then s
  else "%!" ++ String.singleton verb ++ "(string=" ++ s ++ ")"

/-- The loop of `printValue` over the elements of a slice of strings: a space before
every element but the first. -/
def printElems : List String → Char → Nat → String → String
  | [], _, _, buf => buf
  | x :: rest, verb, i, buf =>
    printElems rest verb (i + 1) ((if i > 0 then buf ++ " " else buf) ++ fmtString x verb)

/-- The function `printArg`: a string through `fmtString`, a slice of strings between
square brackets, an error through its `Error` method when the verb takes a string
(and as the pointer to a struct that it is, otherwise). -/
def printArg : any → Char → String
  | any.str s, verb => fmtString s verb
  | any.strs xs, verb => printElems xs verb 0 "[" ++ "]"
  | any.err e, verb =>
    if verb = 'v' ∨ verb = 's' then fmtString e.Error verb
    else "&\x7b" ++ fmtString e.s verb ++ "\x7d"

/-- The name of the dynamic type of an operand, as `reflect.TypeOf(arg).String()`. -/
def typeName : any → String
  | any.str _ => "string"
  | any.strs _ => "[]string"
  | any.err _ => "*errors.errorString"

/-- The tail of the report `%!(EXTRA type=value, ...)` for operands no directive used. -/
def extraArgs : List any → Nat → String
  | [], _ => ")"
  | a :: rest, i =>
    (if i > 0 then ", " else "") ++ typeName a ++ "=" ++ printArg a 'v' ++ extraArgs rest (i + 1)

/-- What `doPrintf` does once the format is used up: operands that are left over are
reported as `EXTRA`. -/
def finishPrintf : List any → List Char
  | [] => []
  | a :: rest => ("%!(EXTRA " ++ extraArgs (a :: rest) 0).data

/-- The scanner `doPrintf` over the characters of the format, filling the output
buffer: text is copied, `%%` is a percent sign, `%` and a verb formats the next
operand (or reports `MISSING` when there is none), a trailing `%` reports `NOVERB`.

The embedding follows Go for the directives `%v`, `%s` and `%%` (the repository uses
`%v` only). Flags, width and precision are not embedded, and the verbs `q`, `x`, `X`,
`T` and `p` are shown as a verb that does not apply. -/
def doPrintf : List Char → List any → List Char
  | [], a => finishPrintf a
  | c :: fmt, a =>
    if c = '%' then
      match fmt, a with
      | [], a => "%!(NOVERB)".data ++ finishPrintf a
      | verb :: fmt1, [] =>
        if verb = '%' then '%' :: doPrintf fmt1 []
        else ("%!" ++ String.singleton verb ++ "(MISSING)").data ++ doPrintf fmt1 []
      | verb :: fmt1, x :: a1 =>
        if verb = '%' then '%' :: doPrintf fmt1 (x :: a1)
        else (printArg x verb).data ++ doPrintf fmt1 a1
    else c :: doPrintf fmt a

/-- The function `fmt.Sprintf(format, a...)`. -/
def Sprintf (format : String) (a : List any) : String := String.mk (doPrintf format.data a)

/-- The loop of `doPrintln`: the operands under `%v`, always separated by a space. -/
def printlnArgs : List any → Nat → String
  | [], _ => ""
  | a :: rest, argNum =>
    (if argNum > 0 then " " else "") ++ printArg a 'v' ++ printlnArgs rest (argNum + 1)

/-- The function `fmt.Sprintln(a...)`: the operands, then a newline. -/
def Sprintln (a : List any) : String := printlnArgs a 0 ++ "\n"

/-- The function `fmt.Sprint(a...)` for a single operand (no separator arises). -/
def Sprint (a : any) : String := printArg a 'v'

/-- The function `fmt.Println(a...)`: writes `Sprintln(a...)` to standard output. -/
def Println (a : List any) : Go Unit := fun p =>
  (Result.ret (), { p with stdout := p.stdout ++ Sprintln a })

end fmt

/-! ## Package `greetings` -/

namespace greetings

/-- Hello returns a greeting for the named person (`greetings.go`, lines 14-19). -/
def Hello (name : String) : String :=
  let message := fmt.Sprintf "Hi, %v. Welcome!" [any.str name]
  message

end greetings

/-! ## Package `handleError` -/

namespace handleError

/-- Hello takes a string called name and returns a string and an error
(`handleError.go`, lines 9-17). -/
def Hello (name : String) : String × error :=
  if name = "" then
    ("", some (errors.New "Please provide a name"))
  else
    let message := fmt.Sprintf "Hi, %v. Welcome!" [any.str name]
    (message, none)

end handleError

/-! ## Package `strings`, slicing, `os` and `log` -/

namespace strings

/-- The function `strings.Join(elems, sep)`: nothing for no element, the element for
one, otherwise the first element and then `sep` and the element for each further one. -/
def Join : List String → String → String
  | [], _ => ""
  | [e], _ => e
  | e :: rest, sep => rest.foldl (fun b s => b ++ sep ++ s) e

end strings

/-- The slice expression `xs[low:]`: the elements from index `low` on, and a run-time
panic when `low` exceeds the length. -/
def sliceFrom (xs : List String) (low : Nat) : Go (List String) :=
  if low ≤ xs.length then Go.pure (xs.drop low)
  else Go.panic ("runtime error: slice bounds out of range [" ++ toString low ++ ":" ++
    toString xs.length ++ "]")

namespace os

/-- The function `os.Exit(code)`: the process ends at once. -/
def Exit {α : Type} (code : Nat) : Go α := fun p => (Result.exited code, p)

end os

namespace log

def Ldate : Nat := 1
def Ltime : Nat := 2
def Lmicroseconds : Nat := 4
def Llongfile : Nat := 8
def Lshortfile : Nat := 16
def Lmsgprefix : Nat := 64

/-- The function `log.SetPrefix`. -/
def SetPrefix (pfx : String) : Go Unit := fun p =>
  (Result.ret (), { p with logPrefix := pfx })

/-- The function `log.SetFlags`. -/
def SetFlags (flag : Nat) : Go Unit := fun p =>
  (Result.ret (), { p with logFlags := flag })

/-- The function `formatHeader`: the prefix (before or after the other fields,
by `Lmsgprefix`), and the date, time and file fields when a flag asks for them. -/
def formatHeader (p : Proc) : String :=
  (if p.logFlags &&& Lmsgprefix = 0 then p.logPrefix else "") ++
  (if p.logFlags &&& (Ldate ||| Ltime ||| Lmicroseconds ||| Lshortfile ||| Llongfile) ≠ 0
    then p.logStamp p.logFlags else "") ++
  (if p.logFlags &&& Lmsgprefix ≠ 0 then p.logPrefix else "")

/-- The method `Output` of the standard logger: header, message, and a newline
unless the message already ends in one; written to standard error. -/
def Output (s : String) : Go Unit := fun p =>
  let line := formatHeader p ++ s ++ (if s.data.getLast? = some '\n' then "" else "\n")
  (Result.ret (), { p with stderr := p.stderr ++ line })

/-- The function `log.Fatal(v)`: `Output(fmt.Sprint(v))`, then `os.Exit(1)`. -/
def Fatal {α : Type} (v : any) : Go α := do
  Output (fmt.Sprint v)
  os.Exit 1

end log

/-! ## Program `hello` (`Basics/hello/hello.go`) -/

namespace hello

/-- Execution of the program always begins at main() (`hello.go`, lines 16-41).
The text returned by the third-party `quote.Hello()` is the parameter `quoteHello`. -/
def main (quoteHello : String) : Go Unit := do
  log.SetPrefix "app: "
  log.SetFlags 0
  fmt.Println [any.str quoteHello]
  let message := greetings.Hello "Ashish"
  fmt.Println [any.str message]
  let (result, err) := handleError.Hello ""
  match err with
  | some e => log.Fatal (any.err e)
  | none => pure ()
  fmt.Println [any.str result]
  fmt.Println [any.str "Hello, 世界"]

end hello

/-! ## Program `args` (`01-Basics/args/main.go`) -/

namespace args

/-- The loop of `echoClassic`: `for i := 1; i < len(os.Args); i++`, carrying `s`
and `sep`. -/
def echoClassic.loop (Args : List String) (i : Nat) (s sep : String) : String :=
  if h : i < Args.length then
    echoClassic.loop Args (i + 1) (s ++ (sep ++ Args[i])) " "
  else s
termination_by Args.length - i

/-- Version 1: classic for loop with index (`main.go`, lines 17-24). -/
def echoClassic (Args : List String) : Go Unit :=
  let s := echoClassic.loop Args 1 "" ""
  fmt.Println [any.str s]

/-- The body of the loop of `echoRange`, on the pair of `s` and `sep`. -/
def echoRange.body (acc : String × String) (arg : String) : String × String :=
  (acc.1 ++ (acc.2 ++ arg), " ")

/-- Version 2: range-based loop (`main.go`, lines 27-34). -/
def echoRange (Args : List String) : Go Unit := do
  let tail ← sliceFrom Args 1
  let (s, _) := tail.foldl echoRange.body ("", "")
  fmt.Println [any.str s]

/-- Version 3: using strings.Join (`main.go`, lines 37-39). -/
def echoJoin (Args : List String) : Go Unit := do
  let tail ← sliceFrom Args 1
  fmt.Println [any.str (strings.Join tail " ")]

/-- The variant that prints the slice itself (`main.go`, lines 41-43). -/
def echoDebug (Args : List String) : Go Unit := do
  let tail ← sliceFrom Args 1
  fmt.Println [any.strs tail]

/-- The entry point (`main.go`, lines 9-14). -/
def main (Args : List String) : Go Unit := do
  echoClassic Args
  echoRange Args
  echoJoin Args
  echoDebug Args

end args

/-! ## The reading of "joined by single spaces" -/

/-- The elements of a list of strings joined by single spaces: the words of the
specification, as a recursion on the list. -/
def spaceJoined : List String → String
  | [] => ""
  | [x] => x
  | x :: y :: rest => x ++ " " ++ spaceJoined (y :: rest)

/-! ## Lemmas on strings and on the library functions -/

theorem String.empty_append_go (s : String) : "" ++ s = s := by
  apply String.ext; simp

theorem String.append_empty_go (s : String) : s ++ "" = s := by
  apply String.ext; simp

theorem String.append_assoc_go (a b c : String) : a ++ b ++ c = a ++ (b ++ c) := by
  apply String.ext; simp

theorem String.append_left_cancel_go {a b c : String} (h : a ++ b = a ++ c) : b = c := by
  apply String.ext
  have h1 := congrArg String.data h
  simpa using h1

theorem String.append_right_cancel_go {a b c : String} (h : a ++ c = b ++ c) : a = b := by
  apply String.ext
  have h1 := congrArg String.data h
  simpa using h1

/-- The format of the two greeting functions, applied to a string operand. -/
theorem fmt.Sprintf_greeting (name : String) :
    fmt.Sprintf "Hi, %v. Welcome!" [any.str name] = "Hi, " ++ name ++ ". Welcome!" := by
  apply String.ext
  simp [fmt.Sprintf, fmt.doPrintf, fmt.printArg, fmt.fmtString, fmt.finishPrintf]

/-- Printing one string with `Println` appends it and a newline to standard output. -/
theorem fmt.Println_str (s : String) (p : Proc) :
    fmt.Println [any.str s] p = (Result.ret (), { p with stdout := p.stdout ++ (s ++ "\n") }) := by
  simp [fmt.Println, fmt.Sprintln, fmt.printlnArgs, fmt.printArg, fmt.fmtString,
    String.empty_append_go, String.append_empty_go]

theorem spaceJoined_append_head (a b : String) (rest : List String) :
    spaceJoined ((a ++ b) :: rest) = a ++ spaceJoined (b :: rest) := by
  cases rest with
  | nil => simp [spaceJoined]
  | cons y r => simp [spaceJoined, String.append_assoc_go]

theorem foldl_sep_eq_spaceJoined (rest : List String) :
    ∀ e : String, rest.foldl (fun b s => b ++ " " ++ s) e = spaceJoined (e :: rest) := by
  induction rest with
  | nil => intro e; simp [spaceJoined]
  | cons y r ih =>
    intro e
    rw [List.foldl_cons, ih, String.append_assoc_go, spaceJoined_append_head,
      spaceJoined_append_head]
    simp [spaceJoined, String.append_assoc_go]

/-- The library function `strings.Join` with a space joins by single spaces. -/
theorem strings.Join_space (xs : List String) : strings.Join xs " " = spaceJoined xs := by
  match xs with
  | [] => simp [strings.Join, spaceJoined]
  | [e] => simp [strings.Join, spaceJoined]
  | e :: y :: rest =>
    show (y :: rest).foldl (fun b s => b ++ " " ++ s) e = spaceJoined (e :: y :: rest)
    exact foldl_sep_eq_spaceJoined (y :: rest) e

theorem fmt.printElems_succ (xs : List String) :
    ∀ (i : Nat) (buf : String),
      fmt.printElems xs 'v' (i + 1) buf = xs.foldl (fun b s => b ++ " " ++ s) buf := by
  induction xs with
  | nil => intro i buf; simp [fmt.printElems]
  | cons x r ih => intro i buf; simp [fmt.printElems, fmt.fmtString, ih]

/-- Under `%v` a slice of strings prints as its elements joined by single spaces,
between square brackets. -/
theorem fmt.printArg_strs (xs : List String) :
    fmt.printArg (any.strs xs) 'v' = "[" ++ spaceJoined xs ++ "]" := by
  cases xs with
  | nil => simp [fmt.printArg, fmt.printElems, spaceJoined]
  | cons x r =>
    simp only [fmt.printArg, fmt.printElems]
    rw [fmt.printElems_succ, foldl_sep_eq_spaceJoined]
    simp [fmt.fmtString, spaceJoined_append_head]

theorem fmt.Println_strs (xs : List String) (p : Proc) :
    fmt.Println [any.strs xs] p =
      (Result.ret (), { p with stdout := p.stdout ++ ("[" ++ spaceJoined xs ++ "]" ++ "\n") }) := by
  simp [fmt.Println, fmt.Sprintln, fmt.printlnArgs, fmt.printArg_strs,
    String.empty_append_go, String.append_empty_go]

/-! ## Lemmas on the echo variants -/

theorem args.foldl_body_sep (xs : List String) :
    ∀ s : String, xs.foldl args.echoRange.body (s, " ")
      = (xs.foldl (fun b x => b ++ " " ++ x) s, " ") := by
  induction xs with
  | nil => intro s; simp
  | cons x r ih => intro s; simp [args.echoRange.body, ih, String.append_assoc_go]

/-- The loop of `echoRange` builds the space-joined text. -/
theorem args.foldl_body_eq (xs : List String) :
    (xs.foldl args.echoRange.body ("", "")).1 = spaceJoined xs := by
  cases xs with
  | nil => simp [spaceJoined]
  | cons x r =>
    simp [args.echoRange.body, String.empty_append_go, args.foldl_body_sep,
      foldl_sep_eq_spaceJoined]

/-- The indexed loop of `echoClassic` is the range loop over the elements from `i` on. -/
theorem args.echoClassic.loop_eq (Args : List String) :
    ∀ (n i : Nat) (s sep : String), Args.length - i = n →
      args.echoClassic.loop Args i s sep
        = ((Args.drop i).foldl args.echoRange.body (s, sep)).1 := by
  intro n
  induction n with
  | zero =>
    intro i s sep h
    have hi : ¬ i < Args.length := by omega
    rw [args.echoClassic.loop, dif_neg hi, List.drop_eq_nil_of_le (by omega)]
    simp
  | succ k ih =>
    intro i s sep h
    have hi : i < Args.length := by omega
    rw [args.echoClassic.loop, dif_pos hi, List.drop_eq_getElem_cons hi, List.foldl_cons,
      ih (i + 1) _ _ (by omega)]
    simp [args.echoRange.body]

/-- The slice `Args[1:]` of a vector that has an element 0. -/
theorem sliceFrom_one (Args : List String) (p : Proc) (h : Args ≠ []) :
    sliceFrom Args 1 p = (Result.ret (Args.drop 1), p) := by
  have hlen : 1 ≤ Args.length := by
    cases Args with
    | nil => exact absurd rfl h
    | cons a r => simp
  simp [sliceFrom, hlen, Go.pure]

/-- The slice `Args[1:]` of the empty vector panics. -/
theorem sliceFrom_one_nil (p : Proc) :
    sliceFrom [] 1 p = (Result.panicked "runtime error: slice bounds out of range [1:0]", p) := by
  simp [sliceFrom, Go.panic]
  decide

theorem args.echoClassic_eq (Args : List String) (p : Proc) :
    args.echoClassic Args p
      = (Result.ret (), { p with stdout := p.stdout ++ (spaceJoined (Args.drop 1) ++ "\n") }) := by
  simp only [args.echoClassic]
  rw [args.echoClassic.loop_eq Args _ 1 "" "" rfl, args.foldl_body_eq, fmt.Println_str]

theorem args.echoRange_eq (Args : List String) (p : Proc) (h : Args ≠ []) :
    args.echoRange Args p
      = (Result.ret (), { p with stdout := p.stdout ++ (spaceJoined (Args.drop 1) ++ "\n") }) := by
  have hfold := args.foldl_body_eq (Args.drop 1)
  simp only [args.echoRange, bind, Go.bind, sliceFrom_one Args p h]
  rw [← hfold]
  exact fmt.Println_str _ p

theorem args.echoJoin_eq (Args : List String) (p : Proc) (h : Args ≠ []) :
    args.echoJoin Args p
      = (Result.ret (), { p with stdout := p.stdout ++ (spaceJoined (Args.drop 1) ++ "\n") }) := by
  simp only [args.echoJoin, bind, Go.bind, sliceFrom_one Args p h, strings.Join_space]
  exact fmt.Println_str _ p

theorem args.echoDebug_eq (Args : List String) (p : Proc) (h : Args ≠ []) :
    args.echoDebug Args p
      = (Result.ret (),
          { p with stdout := p.stdout ++ ("[" ++ spaceJoined (Args.drop 1) ++ "]" ++ "\n") }) := by
  simp only [args.echoDebug, bind, Go.bind, sliceFrom_one Args p h]
  exact fmt.Println_strs _ p

theorem args.echo_nil_panics (p : Proc) :
    args.echoRange [] p = (Result.panicked "runtime error: slice bounds out of range [1:0]", p)
    ∧ args.echoJoin [] p = (Result.panicked "runtime error: slice bounds out of range [1:0]", p)
    ∧ args.echoDebug [] p
        = (Result.panicked "runtime error: slice bounds out of range [1:0]", p) := by
  simp [args.echoRange, args.echoJoin, args.echoDebug, bind, Go.bind, sliceFrom_one_nil]

/-! ## The greeting functions -/

theorem greetings.Hello_eq (name : String) :
    greetings.Hello name = "Hi, " ++ name ++ ". Welcome!" := by
  simp only [greetings.Hello]
  exact fmt.Sprintf_greeting name

theorem handleError.Hello_empty :
    handleError.Hello "" = ("", some (errors.New "Please provide a name")) := by
  simp [handleError.Hello]

theorem handleError.Hello_nonempty (name : String) (h : name ≠ "") :
    handleError.Hello name = ("Hi, " ++ name ++ ". Welcome!", none) := by
  simp only [handleError.Hello, if_neg h]
  rw [fmt.Sprintf_greeting]

/-- C1: `handleError.Hello` signals an error exactly when the name is empty: the
error is non-nil if and only if the name is the empty string; for the empty string
the result string is empty and the error non-nil; for a non-empty name the error
is nil. -/
theorem handleError_Hello_error_iff_empty (name : String) :
    ((handleError.Hello name).2 ≠ none ↔ name = "")
    ∧ ((handleError.Hello "").1 = "" ∧ (handleError.Hello "").2 ≠ none)
    ∧ (name = "" ∨ (handleError.Hello name).2 = none) := by
  refine ⟨?_, ?_, ?_⟩
  · by_cases h : name = ""
    · subst h; simp [handleError.Hello_empty]
    · simp [handleError.Hello_nonempty name h, h]
  · simp [handleError.Hello_empty]
  · by_cases h : name = ""
    · exact Or.inl h
    · exact Or.inr (by simp [handleError.Hello_nonempty name h])

/-- C3: for every name `n`, `greetings.Hello n` is `"Hi, "`, then `n`, then
`". Welcome!"`; for every non-empty `n` the string returned by `handleError.Hello n`
is the same; the name `"Ashish"` gives `"Hi, Ashish. Welcome!"`. -/
theorem greeting_text (n : String) :
    greetings.Hello n = "Hi, " ++ n ++ ". Welcome!"
    ∧ (n ≠ "" → (handleError.Hello n).1 = "Hi, " ++ n ++ ". Welcome!")
    ∧ greetings.Hello "Ashish" = "Hi, Ashish. Welcome!"
    ∧ (handleError.Hello "Ashish").1 = "Hi, Ashish. Welcome!" := by
  refine ⟨greetings.Hello_eq n, ?_, by decide, by decide⟩
  intro h
  rw [handleError.Hello_nonempty n h]

/-- Witness for C3 at the name `"Go"`. -/
theorem greeting_text_witness :
    greetings.Hello "Go" = "Hi, Go. Welcome!"
    ∧ (handleError.Hello "Go").1 = "Hi, Go. Welcome!" :=
  ⟨(greeting_text "Go").1, (greeting_text "Go").2.1 (by decide)⟩

/-- C4: for every non-empty name `n`, the string returned by `greetings.Hello` and the
string returned by `handleError.Hello` both contain `n` as a contiguous substring:
each is some text, then `n`, then some text. -/
theorem greeting_contains_name (n : String) (h : n ≠ "") :
    (∃ before after : String, greetings.Hello n = before ++ n ++ after)
    ∧ (∃ before after : String, (handleError.Hello n).1 = before ++ n ++ after) := by
  refine ⟨⟨"Hi, ", ". Welcome!", greetings.Hello_eq n⟩, ⟨"Hi, ", ". Welcome!", ?_⟩⟩
  rw [handleError.Hello_nonempty n h]

/-- Witness for C4 at the name `"Ashish"`. -/
theorem greeting_contains_name_witness :
    "Ashish" ≠ ""
    ∧ (∃ before after : String, greetings.Hello "Ashish" = before ++ "Ashish" ++ after)
    ∧ (∃ before after : String,
        (handleError.Hello "Ashish").1 = before ++ "Ashish" ++ after) :=
  ⟨by decide, greeting_contains_name "Ashish" (by decide)⟩

/-- C5: given the empty name, `handleError.Hello` returns the result `""` and an error
whose message is exactly `"Please provide a name"`; whatever the name, the error it
returns is nil or that one error, and it is that error only for the empty name. -/
theorem handleError_Hello_only_error (name : String) :
    ((handleError.Hello "").1 = ""
      ∧ ∃ e : errors.errorString,
          (handleError.Hello "").2 = some e ∧ e.Error = "Please provide a name")
    ∧ ((handleError.Hello name).2 = none
      ∨ (name = "" ∧ ∃ e : errors.errorString,
          (handleError.Hello name).2 = some e ∧ e.Error = "Please provide a name")) := by
  refine ⟨⟨by simp [handleError.Hello_empty], errors.New "Please provide a name",
    by simp [handleError.Hello_empty], rfl⟩, ?_⟩
  by_cases h : name = ""
  · subst h
    exact Or.inr ⟨rfl, errors.New "Please provide a name",
      by simp [handleError.Hello_empty], rfl⟩
  · exact Or.inl (by simp [handleError.Hello_nonempty name h])

/-- C6: for every non-empty name `n`, the string returned by `handleError.Hello n`
equals `greetings.Hello n` (and the error is nil). -/
theorem handleError_Hello_refines_greetings (n : String) (h : n ≠ "") :
    (handleError.Hello n).1 = greetings.Hello n ∧ (handleError.Hello n).2 = none := by
  rw [handleError.Hello_nonempty n h, greetings.Hello_eq]
  exact ⟨rfl, rfl⟩

/-- Witness for C6 at the name `"Ashish"`. -/
theorem handleError_Hello_refines_greetings_witness :
    "Ashish" ≠ ""
    ∧ (handleError.Hello "Ashish").1 = greetings.Hello "Ashish"
    ∧ (handleError.Hello "Ashish").2 = none :=
  ⟨by decide, handleError_Hello_refines_greetings "Ashish" (by decide)⟩

/-- C9: `greetings.Hello` is injective, and two non-empty names with the same
`handleError.Hello` result are equal. -/
theorem greeting_injective (a b : String) :
    (greetings.Hello a = greetings.Hello b → a = b)
    ∧ (a ≠ "" → b ≠ "" → (handleError.Hello a).1 = (handleError.Hello b).1 → a = b) := by
  have key : "Hi, " ++ a ++ ". Welcome!" = "Hi, " ++ b ++ ". Welcome!" → a = b := by
    intro h
    exact String.append_left_cancel_go (String.append_right_cancel_go h)
  refine ⟨?_, ?_⟩
  · intro h
    rw [greetings.Hello_eq, greetings.Hello_eq] at h
    exact key h
  · intro ha hb h
    rw [handleError.Hello_nonempty a ha, handleError.Hello_nonempty b hb] at h
    exact key h

/-- Witness for C9: the names `"Ann"` and `"Bob"` differ, so their greetings differ. -/
theorem greeting_injective_witness :
    greetings.Hello "Ann" ≠ greetings.Hello "Bob"
    ∧ (handleError.Hello "Ann").1 ≠ (handleError.Hello "Bob").1 :=
  ⟨fun h => absurd ((greeting_injective "Ann" "Bob").1 h) (by decide),
   fun h => absurd ((greeting_injective "Ann" "Bob").2 (by decide) (by decide) h) (by decide)⟩

/-! ## The hello demo -/

/-- C8: whatever `quote.Hello()` returns and whatever the process has printed so far,
the run of the hello demo prints the quote and `"Hi, Ashish. Welcome!"`, writes the
log line `"app: Please provide a name"` to standard error and ends the process with
exit code 1; nothing else reaches standard output, so the result of
`handleError.Hello` and `"Hello, 世界"` are not printed. `log.Fatal` on an error
always ends the process with exit code 1. -/
theorem hello_main_fatal (quoteHello : String) (p : Proc) :
    hello.main quoteHello p
      = (Result.exited 1,
          { p with
            logPrefix := "app: "
            logFlags := 0
            stdout := p.stdout ++ (quoteHello ++ "\n") ++ ("Hi, Ashish. Welcome!" ++ "\n")
            stderr := p.stderr ++ "app: Please provide a name\n" })
    ∧ ∀ e : errors.errorString,
        ((log.Fatal (any.err e) p : Result Unit × Proc)).1 = Result.exited 1 := by
  refine ⟨?_, ?_⟩
  · simp only [hello.main, bind, Go.bind, log.SetPrefix, log.SetFlags, fmt.Println_str,
      handleError.Hello_empty, log.Fatal, log.Output, os.Exit, log.formatHeader,
      fmt.Sprint, fmt.printArg, fmt.fmtString, errors.errorString.Error, errors.New]
    have hg : greetings.Hello "Ashish" = "Hi, Ashish. Welcome!" := by decide
    simp [hg, String.empty_append_go, String.append_empty_go]
  · intro e
    simp [log.Fatal, bind, Go.bind, log.Output, os.Exit]

/-! ## The echo variants -/

/-- Two vectors of the same length that agree at every index from 1 on have the same
elements after element 0. -/
theorem drop_one_eq_of_agree (a b : List String) (hlen : a.length = b.length)
    (htail : ∀ i : Nat, 1 ≤ i → a[i]? = b[i]?) : a.drop 1 = b.drop 1 ∧ (a = [] ↔ b = []) := by
  refine ⟨?_, ?_⟩
  · apply List.ext_getElem?
    intro n
    rw [List.getElem?_drop, List.getElem?_drop]
    exact htail (1 + n) (by omega)
  · rw [← List.length_eq_zero, ← List.length_eq_zero (l := b), hlen]

/-- C2, on the empty argument vector: `echoClassic` prints an empty line, while
`echoRange` and `echoJoin` print nothing and panic on the slice expression
`os.Args[1:]`; the outcomes of `echoClassic` and `echoRange` differ. -/
theorem echo_variants_differ_on_empty_vector :
    (args.echoClassic [] (Proc.start fun _ => "")).2.stdout = "\n"
    ∧ (args.echoClassic [] (Proc.start fun _ => "")).1 = Result.ret ()
    ∧ (args.echoRange [] (Proc.start fun _ => "")).2.stdout = ""
    ∧ (args.echoRange [] (Proc.start fun _ => "")).1
        = Result.panicked "runtime error: slice bounds out of range [1:0]"
    ∧ (args.echoJoin [] (Proc.start fun _ => "")).2.stdout = ""
    ∧ (args.echoJoin [] (Proc.start fun _ => "")).1
        = Result.panicked "runtime error: slice bounds out of range [1:0]"
    ∧ args.echoClassic [] (Proc.start fun _ => "")
        ≠ args.echoRange [] (Proc.start fun _ => "") := by
  have hc := args.echoClassic_eq [] (Proc.start fun _ => "")
  have hn := args.echo_nil_panics (Proc.start fun _ => "")
  rw [hc, hn.1, hn.2.1]
  refine ⟨by decide, rfl, rfl, rfl, rfl, rfl, ?_⟩
  intro h
  have h1 := congrArg Prod.fst h
  simp at h1

/-- C2, amended: for every argument vector with at least one element, `echoClassic`,
`echoRange` and `echoJoin` have the same outcome: each returns after appending to
standard output the elements after element 0 joined by single spaces, and a newline. -/
theorem echo_variants_agree (Args : List String) (p : Proc) (h : Args ≠ []) :
    args.echoClassic Args p = args.echoRange Args p
    ∧ args.echoRange Args p = args.echoJoin Args p
    ∧ args.echoJoin Args p
        = (Result.ret (),
            { p with stdout := p.stdout ++ (spaceJoined (Args.drop 1) ++ "\n") }) := by
  rw [args.echoClassic_eq, args.echoRange_eq Args p h, args.echoJoin_eq Args p h]
  exact ⟨rfl, rfl, rfl⟩

/-- Witness for C2 at the vector `["prog", "a", "b", "c"]`: all three print `a b c`. -/
theorem echo_variants_agree_witness :
    ["prog", "a", "b", "c"] ≠ []
    ∧ (args.echoClassic ["prog", "a", "b", "c"] (Proc.start fun _ => "")).2.stdout = "a b c\n"
    ∧ (args.echoRange ["prog", "a", "b", "c"] (Proc.start fun _ => "")).2.stdout = "a b c\n"
    ∧ (args.echoJoin ["prog", "a", "b", "c"] (Proc.start fun _ => "")).2.stdout = "a b c\n" := by
  have hw := echo_variants_agree ["prog", "a", "b", "c"] (Proc.start fun _ => "") (by decide)
  rw [hw.1, hw.2.1, hw.2.2]
  exact ⟨by decide, by decide, by decide, by decide⟩

/-- C7: for two argument vectors that differ only in element 0 (same length, same
element at every index from 1 on), each of `echoClassic`, `echoRange`, `echoJoin`
and `echoDebug` has the same outcome on both, started from the same process state. -/
theorem echo_ignores_program_path (a b : List String) (p : Proc)
    (hlen : a.length = b.length) (htail : ∀ i : Nat, 1 ≤ i → a[i]? = b[i]?) :
    args.echoClassic a p = args.echoClassic b p
    ∧ args.echoRange a p = args.echoRange b p
    ∧ args.echoJoin a p = args.echoJoin b p
    ∧ args.echoDebug a p = args.echoDebug b p := by
  obtain ⟨hdrop, hnil⟩ := drop_one_eq_of_agree a b hlen htail
  by_cases ha : a = []
  · have hb : b = [] := hnil.mp ha
    subst ha; subst hb
    exact ⟨rfl, rfl, rfl, rfl⟩
  · have hb : b ≠ [] := fun hb => ha (hnil.mpr hb)
    rw [args.echoClassic_eq, args.echoClassic_eq, args.echoRange_eq a p ha,
      args.echoRange_eq b p hb, args.echoJoin_eq a p ha, args.echoJoin_eq b p hb,
      args.echoDebug_eq a p ha, args.echoDebug_eq b p hb, hdrop]
    exact ⟨rfl, rfl, rfl, rfl⟩

/-- Witness for C7: the vectors `["/usr/bin/echo", "x", "y"]` and `["./echo", "x", "y"]`. -/
theorem echo_ignores_program_path_witness :
    (["/usr/bin/echo", "x", "y"].length = ["./echo", "x", "y"].length)
    ∧ (∀ i : Nat, 1 ≤ i → ["/usr/bin/echo", "x", "y"][i]? = ["./echo", "x", "y"][i]?)
    ∧ args.echoClassic ["/usr/bin/echo", "x", "y"] (Proc.start fun _ => "")
        = args.echoClassic ["./echo", "x", "y"] (Proc.start fun _ => "")
    ∧ args.echoRange ["/usr/bin/echo", "x", "y"] (Proc.start fun _ => "")
        = args.echoRange ["./echo", "x", "y"] (Proc.start fun _ => "")
    ∧ args.echoJoin ["/usr/bin/echo", "x", "y"] (Proc.start fun _ => "")
        = args.echoJoin ["./echo", "x", "y"] (Proc.start fun _ => "")
    ∧ args.echoDebug ["/usr/bin/echo", "x", "y"] (Proc.start fun _ => "")
        = args.echoDebug ["./echo", "x", "y"] (Proc.start fun _ => "") := by
  have hagree : ∀ i : Nat, 1 ≤ i →
      ["/usr/bin/echo", "x", "y"][i]? = ["./echo", "x", "y"][i]? := by
    intro i hi
    cases i with
    | zero => omega
    | succ j => rfl
  exact ⟨rfl, hagree,
    echo_ignores_program_path ["/usr/bin/echo", "x", "y"] ["./echo", "x", "y"]
      (Proc.start fun _ => "") rfl hagree⟩

/-- C10: for every argument vector with at least one element, `echoJoin` appends to
standard output the line `strings.Join(os.Args[1:], " ")` and a newline, and `echoDebug`
appends `"["`, that same line, `"]"` and a newline; for a vector that holds only the
program path, `echoDebug` prints `[]` and `echoJoin` an empty line. -/
theorem echoDebug_brackets_echoJoin (Args : List String) (p : Proc) (h : Args ≠ []) :
    args.echoJoin Args p
      = (Result.ret (),
          { p with stdout := p.stdout ++ (strings.Join (Args.drop 1) " " ++ "\n") })
    ∧ args.echoDebug Args p
      = (Result.ret (),
          { p with
            stdout := p.stdout ++ ("[" ++ strings.Join (Args.drop 1) " " ++ "]" ++ "\n") })
    ∧ ∀ prog : String,
        (args.echoDebug [prog] p).2.stdout = p.stdout ++ "[]\n"
        ∧ (args.echoJoin [prog] p).2.stdout = p.stdout ++ "\n" := by
  refine ⟨?_, ?_, ?_⟩
  · rw [args.echoJoin_eq Args p h, strings.Join_space]
  · rw [args.echoDebug_eq Args p h, strings.Join_space]
  · intro prog
    rw [args.echoDebug_eq [prog] p (by simp), args.echoJoin_eq [prog] p (by simp)]
    exact ⟨by simp [spaceJoined], by simp [spaceJoined, String.empty_append_go]⟩

/-- Witness for C10 at the vector `["prog", "a", "b"]`: `echoJoin` prints `a b` and
`echoDebug` prints `[a b]`. -/
theorem echoDebug_brackets_echoJoin_witness :
    ["prog", "a", "b"] ≠ []
    ∧ (args.echoJoin ["prog", "a", "b"] (Proc.start fun _ => "")).2.stdout = "a b\n"
    ∧ (args.echoDebug ["prog", "a", "b"] (Proc.start fun _ => "")).2.stdout = "[a b]\n" := by
  have hw := echoDebug_brackets_echoJoin ["prog", "a", "b"] (Proc.start fun _ => "")
    (by decide)
  rw [hw.1, hw.2.1]
  exact ⟨by decide, by decide, by decide⟩
